import Mathlib

/-!
Shallow embedding of `src/main.rs` of the `git-automation` repository: a CLI
wrapper that orchestrates `git` subprocess calls (commit-and-push, branch
operations, status, configuration init).

Modelling conventions:
* A subprocess invocation (`Command::new("git").args(..).output()`) is an
  oracle query: the world supplies, for each successive call, either a launch
  failure (the `Err` of `output()`) or a captured `Output` (status flag,
  stdout, stderr, both streams already decoded to text, matching
  `from_utf8_lossy` on well-formed output).
* Every externally visible effect (subprocess spawn with its argument list,
  file write, log line, println) is recorded in an event trace, so temporal
  claims about which subprocesses are launched become statements about the
  trace.
* The `names` crate generator (`Generator::default().next().unwrap()`) yields
  `format!("{}-{}", adjective, noun)`; the two randomly picked words are
  supplied by the world (`adj`, `noun`). The iterator never returns `None`,
  so `unwrap` is total.
* The `toml` crate is modelled only for the flat three-key table this program
  reads and writes: `to_string_pretty` emits the struct fields in declaration
  order, one `key = value` line each; `from_str` parses one `key = value`
  pair per non-empty line. The detailed text of a toml parse error message is
  abstracted to the fixed string "Failed to parse config file" (the code
  appends the toml error's own text to that message).
* `env_logger` setup under `--verbose` only controls display of log lines;
  log events are recorded in the trace unconditionally.
* `fs::write` in `init` is modelled as always succeeding.
* Rust `str::trim` (Unicode whitespace at both ends) is modelled by
  `strTrim` using `Char.isWhitespace`.
-/

namespace GitAutomation

/-- Model of Rust `str::trim` on the character list of a string. -/
def trimChars (l : List Char) : List Char :=
  ((l.dropWhile (·.isWhitespace)).reverse.dropWhile (·.isWhitespace)).reverse

/-- Model of Rust `str::trim`. -/
def strTrim (s : String) : String :=
  String.mk (trimChars s.data)

/-- Captured outcome of a subprocess that did launch: `status.success()`,
decoded stdout, decoded stderr. -/
structure Output where
  success : Bool
  stdout : String
  stderr : String
deriving Repr, DecidableEq

/-- Result of attempting to launch one subprocess: either `output()` returned
`Err` (the executable could not be launched at all) or it returned `Ok` with
a captured `Output`. -/
inductive SpawnResult where
  | launchFailure (msg : String)
  | ok (out : Output)
deriving Repr, DecidableEq

/-- Externally visible effects of one program run. -/
inductive Event where
  | spawn (args : List String)
  | writeFile (path : String) (contents : String)
  | logInfo (msg : String)
  | logWarn (msg : String)
  | logError (msg : String)
  | println (msg : String)
deriving Repr, DecidableEq

/-- Execution state threaded through the run: the oracle answering subprocess
launches, the number of launches so far, and the accumulated event trace. -/
structure St where
  oracle : Nat → SpawnResult
  calls : Nat
  events : List Event

/-- Append one event to the trace. -/
def emit (e : Event) (s : St) : St :=
  { oracle := s.oracle, calls := s.calls, events := s.events ++ [e] }

/-- Launch `git` with the given arguments: records the spawn in the trace and
consumes the next oracle answer. -/
def run_git (args : List String) (s : St) : SpawnResult × St :=
  (s.oracle s.calls,
   { oracle := s.oracle, calls := s.calls + 1,
     events := s.events ++ [Event.spawn args] })

/-- The persisted configuration (`struct Config`). -/
structure Config where
  default_remote : String
  commit_template : String
  auto_pull : Bool
deriving Repr, DecidableEq

/-- Embedding of `impl Default for Config`. -/
def Config.default : Config :=
  { default_remote := "origin"
    commit_template := "feat: \x7b\x7d"
    auto_pull := true }

/-- Embedding of `struct GitOps`: the loaded configuration plus the global dry-run flag. -/
structure GitOps where
  config : Config
  dry_run : Bool

/-- Embedding of `GitOps::get_current_branch`: runs `git rev-parse --abbrev-ref HEAD`;
a launch failure is an error, otherwise the trimmed stdout is returned
(the exit status is not inspected). -/
def GitOps.get_current_branch (g : GitOps) (s : St) : Except String String × St :=
  match run_git ["rev-parse", "--abbrev-ref", "HEAD"] s with
  | (SpawnResult.launchFailure e, s1) =>
      (Except.error ("Failed to get current branch: " ++ e), s1)
  | (SpawnResult.ok out, s1) => (Except.ok (strTrim out.stdout), s1)

/-- Embedding of `GitOps::check_git_repo`: runs `git rev-parse --is-inside-work-tree` and
maps the result to `status.success()`, with `unwrap_or(false)` collapsing a
launch failure to `false`. -/
def GitOps.check_git_repo (g : GitOps) (s : St) : Bool × St :=
  match run_git ["rev-parse", "--is-inside-work-tree"] s with
  | (SpawnResult.launchFailure _, s1) => (false, s1)
  | (SpawnResult.ok out, s1) => (out.success, s1)

/-- Embedding of `GitOps::has_changes`: runs `git status --porcelain`; a launch failure is
an error, otherwise reports whether stdout is non-empty (the exit status is
not inspected). -/
def GitOps.has_changes (g : GitOps) (s : St) : Except String Bool × St :=
  match run_git ["status", "--porcelain"] s with
  | (SpawnResult.launchFailure e, s1) =>
      (Except.error ("Failed to check git status: " ++ e), s1)
  | (SpawnResult.ok out, s1) => (Except.ok (!out.stdout.isEmpty), s1)

/-- Embedding of `GitOps::pull`. -/
def GitOps.pull (g : GitOps) (s : St) : Except String Unit × St :=
  if g.dry_run then
    (Except.ok (), emit (Event.logInfo "[DRY RUN] Would pull changes") s)
  else
    match run_git ["pull"] s with
    | (SpawnResult.launchFailure e, s1) =>
        (Except.error ("Failed to pull changes: " ++ e), s1)
    | (SpawnResult.ok out, s1) =>
        if out.success then (Except.ok (), s1)
        else
          (Except.error ("Pull failed: " ++ out.stderr),
           emit (Event.logError ("Pull failed: " ++ out.stderr)) s1)

/-- Rust `{:?}` formatting of a `Vec<String>` (escape-free contents). -/
def rustDebugList (files : List String) : String :=
  "[" ++ String.intercalate ", " (files.map (fun f => "\"" ++ f ++ "\"")) ++ "]"

/-- Embedding of `GitOps::add_files`. -/
def GitOps.add_files (g : GitOps) (files : List String) (s : St) :
    Except String Unit × St :=
  if g.dry_run then
    (Except.ok (),
     emit (Event.logInfo ("[DRY RUN] Would add files: " ++ rustDebugList files)) s)
  else
    match run_git ("add" :: files) s with
    | (SpawnResult.launchFailure e, s1) =>
        (Except.error ("Failed to add files: " ++ e), s1)
    | (SpawnResult.ok out, s1) =>
        if out.success then (Except.ok (), s1)
        else
          (Except.error ("Add failed: " ++ out.stderr),
           emit (Event.logError ("Add failed: " ++ out.stderr)) s1)

/-- Embedding of `GitOps::commit`. -/
def GitOps.commit (g : GitOps) (message : String) (s : St) :
    Except String Unit × St :=
  if g.dry_run then
    (Except.ok (),
     emit (Event.logInfo ("[DRY RUN] Would commit with message: " ++ message)) s)
  else
    match run_git ["commit", "-m", message] s with
    | (SpawnResult.launchFailure e, s1) =>
        (Except.error ("Failed to commit: " ++ e), s1)
    | (SpawnResult.ok out, s1) =>
        if out.success then (Except.ok (), s1)
        else
          (Except.error ("Commit failed: " ++ out.stderr),
           emit (Event.logError ("Commit failed: " ++ out.stderr)) s1)

/-- Embedding of `GitOps::push`: pushes the given branch to the configured remote. -/
def GitOps.push (g : GitOps) (branch : String) (s : St) :
    Except String Unit × St :=
  if g.dry_run then
    (Except.ok (), emit (Event.logInfo ("[DRY RUN] Would push to " ++ branch)) s)
  else
    match run_git ["push", g.config.default_remote, branch] s with
    | (SpawnResult.launchFailure e, s1) =>
        (Except.error ("Failed to push: " ++ e), s1)
    | (SpawnResult.ok out, s1) =>
        if out.success then (Except.ok (), s1)
        else
          (Except.error ("Push failed: " ++ out.stderr),
           emit (Event.logError ("Push failed: " ++ out.stderr)) s1)

/-- Embedding of `GitOps::create_branch`. -/
def GitOps.create_branch (g : GitOps) (name : String) (s : St) :
    Except String Unit × St :=
  if g.dry_run then
    (Except.ok (), emit (Event.logInfo ("[DRY RUN] Would create branch: " ++ name)) s)
  else
    match run_git ["checkout", "-b", name] s with
    | (SpawnResult.launchFailure e, s1) =>
        (Except.error ("Failed to create branch: " ++ e), s1)
    | (SpawnResult.ok out, s1) =>
        if out.success then (Except.ok (), s1)
        else
          (Except.error ("Branch creation failed: " ++ out.stderr),
           emit (Event.logError ("Branch creation failed: " ++ out.stderr)) s1)

/-- Embedding of `GitOps::switch_branch`. -/
def GitOps.switch_branch (g : GitOps) (name : String) (s : St) :
    Except String Unit × St :=
  if g.dry_run then
    (Except.ok (), emit (Event.logInfo ("[DRY RUN] Would switch to branch: " ++ name)) s)
  else
    match run_git ["checkout", name] s with
    | (SpawnResult.launchFailure e, s1) =>
        (Except.error ("Failed to switch branch: " ++ e), s1)
    | (SpawnResult.ok out, s1) =>
        if out.success then (Except.ok (), s1)
        else
          (Except.error ("Branch switch failed: " ++ out.stderr),
           emit (Event.logError ("Branch switch failed: " ++ out.stderr)) s1)

/-- Embedding of `GitOps::delete_branch`. -/
def GitOps.delete_branch (g : GitOps) (name : String) (s : St) :
    Except String Unit × St :=
  if g.dry_run then
    (Except.ok (), emit (Event.logInfo ("[DRY RUN] Would delete branch: " ++ name)) s)
  else
    match run_git ["branch", "-d", name] s with
    | (SpawnResult.launchFailure e, s1) =>
        (Except.error ("Failed to delete branch: " ++ e), s1)
    | (SpawnResult.ok out, s1) =>
        if out.success then (Except.ok (), s1)
        else
          (Except.error ("Branch deletion failed: " ++ out.stderr),
           emit (Event.logError ("Branch deletion failed: " ++ out.stderr)) s1)

/-- Split a character list at newline characters (model of line structure of
a toml document). -/
def splitLinesChars (l : List Char) : List (List Char) :=
  match l with
  | [] => [[]]
  | x :: xs =>
    let r := splitLinesChars xs
    if x = '\n' then [] :: r
    else
      match r with
      | [] => [[x]]
      | y :: ys => (x :: y) :: ys

/-- Split a toml line at its first " = " separator into key and value. -/
def splitKV (l : List Char) : Option (List Char × List Char) :=
  match l with
  | [] => none
  | ' ' :: '=' :: ' ' :: rest => some ([], rest)
  | x :: xs => (splitKV xs).map (fun p => (x :: p.1, p.2))

/-- Parse a toml basic-string value `"..."` (escape-free contents). -/
def parseTomlValueString (v : List Char) : Option (List Char) :=
  match v with
  | '"' :: rest =>
    match rest.reverse with
    | '"' :: midrev => some midrev.reverse
    | _ => none
  | _ => none

/-- Parse a toml boolean value. -/
def parseTomlValueBool (v : List Char) : Option Bool :=
  if v = "true".data then some true
  else if v = "false".data then some false
  else none

/-- Parse every line of a flat toml table into key-value pairs; any
unparseable line fails the whole document. -/
def parseTomlLines : List (List Char) → Option (List (List Char × List Char))
  | [] => some []
  | l :: ls =>
    match splitKV l, parseTomlLines ls with
    | some kv, some kvs => some (kv :: kvs)
    | _, _ => none

/-- Model of `toml::from_str::<Config>` for flat three-key documents: every
non-empty line must be a `key = value` pair, and the three `Config` fields
must all be present with values of the right type (unknown keys are
ignored, as serde does by default). -/
def toml_from_str (s : String) : Option Config :=
  match parseTomlLines ((splitLinesChars s.data).filter (fun l => l ≠ [])) with
  | none => none
  | some kvs =>
    match (kvs.lookup "default_remote".data).bind parseTomlValueString,
          (kvs.lookup "commit_template".data).bind parseTomlValueString,
          (kvs.lookup "auto_pull".data).bind parseTomlValueBool with
    | some r, some t, some a =>
        some { default_remote := String.mk r, commit_template := String.mk t,
               auto_pull := a }
    | _, _, _ => none

/-- Model of `toml::to_string_pretty(&Config)`: the struct fields in
declaration order, one `key = value` line each, strings in basic quotes. -/
def toml_to_string_pretty (c : Config) : String :=
  "default_remote = \"" ++ c.default_remote ++ "\"\n" ++
  "commit_template = \"" ++ c.commit_template ++ "\"\n" ++
  "auto_pull = " ++ (if c.auto_pull then "true" else "false") ++ "\n"

/-- Embedding of `load_config`: absent file yields the default configuration; a present
file is parsed, and a parse failure is an error (the toml error detail text
is abstracted away; a read failure of an existing file is not modelled). -/
def load_config (configFile : Option String) : Except String Config :=
  match configFile with
  | none => Except.ok Config.default
  | some s =>
    match toml_from_str s with
    | some config => Except.ok config
    | none => Except.error "Failed to parse config file"

/-- Embedding of `generate_commit_message`: the `names` generator yields
`adjective ++ "-" ++ noun`; with `conventional` the result is wrapped as
`"feat: " ++ name`, otherwise the raw name is returned (the `template`
argument is ignored, as in the source). -/
def generate_commit_message (template : String) (conventional : Bool)
    (adj noun : String) : String :=
  let name := adj ++ "-" ++ noun
  if conventional then "feat: " ++ name else name

/-- Branch subcommands of the CLI. -/
inductive BranchCommands where
  | create (name : String)
  | switch (name : String)
  | delete (name : String)
deriving Repr, DecidableEq

/-- The CLI subcommands (`enum Commands`). -/
inductive Commands where
  | commit (message : Option String) (files : Option (List String))
      (conventional : Bool)
  | branch (cmd : BranchCommands)
  | init
  | status
deriving Repr, DecidableEq

/-- The parsed CLI invocation (`struct Cli`). -/
structure Cli where
  command : Commands
  verbose : Bool
  dry_run : Bool
deriving Repr, DecidableEq

/-- The external world of one run: the configuration file contents if the
file exists, the subprocess oracle, and the two words the random name
generator will pick. -/
structure World where
  configFile : Option String
  oracle : Nat → SpawnResult
  adj : String
  noun : String

/-- Fresh execution state for a world. -/
def initSt (w : World) : St :=
  { oracle := w.oracle, calls := 0, events := [] }

/-- Embedding of `fn main`: load configuration, verify the repository precondition, then
dispatch on the subcommand. Returns the process outcome (`Ok` is exit code
0, `Err` is a fatal error and a non-zero exit code) together with the final
execution state. -/
def main (cli : Cli) (w : World) : Except String Unit × St :=
  match load_config w.configFile with
  | Except.error e => (Except.error e, initSt w)
  | Except.ok config =>
    let git_ops : GitOps := { config := config, dry_run := cli.dry_run }
    match git_ops.check_git_repo (initSt w) with
    | (false, s1) =>
        (Except.error "Not in a git repository",
         emit (Event.logError "Not in a git repository") s1)
    | (true, s1) =>
      match cli.command with
      | Commands.commit message files conventional =>
        let files := files.getD ["."]
        match (if git_ops.config.auto_pull then git_ops.pull s1
               else (Except.ok (), s1)) with
        | (Except.error e, s2) => (Except.error e, s2)
        | (Except.ok _, s2) =>
          match git_ops.add_files files s2 with
          | (Except.error e, s3) => (Except.error e, s3)
          | (Except.ok _, s3) =>
            match git_ops.has_changes s3 with
            | (Except.error e, s4) => (Except.error e, s4)
            | (Except.ok hc, s4) =>
              if !hc then
                (Except.ok (), emit (Event.logWarn "No changes to commit") s4)
              else
                let commit_msg := message.getD
                  (generate_commit_message git_ops.config.commit_template
                    conventional w.adj w.noun)
                match git_ops.commit commit_msg s4 with
                | (Except.error e, s5) => (Except.error e, s5)
                | (Except.ok _, s5) =>
                  match git_ops.get_current_branch s5 with
                  | (Except.error e, s6) => (Except.error e, s6)
                  | (Except.ok current_branch, s6) =>
                    match git_ops.push current_branch s6 with
                    | (Except.error e, s7) => (Except.error e, s7)
                    | (Except.ok _, s7) =>
                        (Except.ok (),
                         emit (Event.logInfo
                           "Successfully committed and pushed changes") s7)
      | Commands.branch cmd =>
        match cmd with
        | BranchCommands.create name =>
          match git_ops.create_branch name s1 with
          | (Except.error e, s2) => (Except.error e, s2)
          | (Except.ok _, s2) => (Except.ok (), s2)
        | BranchCommands.switch name =>
          match git_ops.switch_branch name s1 with
          | (Except.error e, s2) => (Except.error e, s2)
          | (Except.ok _, s2) => (Except.ok (), s2)
        | BranchCommands.delete name =>
          match git_ops.delete_branch name s1 with
          | (Except.error e, s2) => (Except.error e, s2)
          | (Except.ok _, s2) => (Except.ok (), s2)
      | Commands.init =>
        let config := Config.default
        let toml := toml_to_string_pretty config
        (Except.ok (),
         emit (Event.logInfo "Initialized configuration file")
           (emit (Event.writeFile "git-automate.toml" toml) s1))
      | Commands.status =>
        match git_ops.get_current_branch s1 with
        | (Except.error e, s2) => (Except.error e, s2)
        | (Except.ok current_branch, s2) =>
          match git_ops.has_changes s2 with
          | (Except.error e, s3) => (Except.error e, s3)
          | (Except.ok hc, s3) =>
              (Except.ok (),
               emit (Event.println ("Has uncommitted changes: " ++ toString hc))
                 (emit (Event.println ("Current branch: " ++ current_branch)) s3))

/-- The argument lists of the subprocesses launched during a run, in order. -/
def spawns (evs : List Event) : List (List String) :=
  evs.filterMap (fun e =>
    match e with
    | Event.spawn args => some args
    | _ => none)

lemma data_append (a b : String) : (a ++ b).data = a.data ++ b.data := rfl

lemma append_ne_empty_of_left_ne (a b : String) (h : a ≠ "") : a ++ b ≠ "" := by
  intro hab
  apply h
  have h2 : a.data ++ b.data = [] := by
    have := congrArg String.data hab
    rwa [data_append] at this
  rcases List.append_eq_nil.mp h2 with ⟨ha, -⟩
  cases a
  simp_all

lemma append_ne_empty_of_right_ne (a b : String) (h : b ≠ "") : a ++ b ≠ "" := by
  intro hab
  apply h
  have h2 : a.data ++ b.data = [] := by
    have := congrArg String.data hab
    rwa [data_append] at this
  rcases List.append_eq_nil.mp h2 with ⟨-, hb⟩
  cases b
  simp_all

lemma spawns_append (es fs : List Event) :
    spawns (es ++ fs) = spawns es ++ spawns fs := by
  simp [spawns]

/-- C9: for every template and every conventional flag value, the generated
commit message is non-empty, and whenever `conventional` is true the message
is literally `"feat: "` followed by the generated name, hence begins with the
prefix `"feat: "`. -/
theorem generated_message_nonempty_and_feat (template : String)
    (conventional : Bool) (adj noun : String) :
    generate_commit_message template conventional adj noun ≠ "" ∧
    (conventional = true →
      generate_commit_message template conventional adj noun =
        "feat: " ++ (adj ++ "-" ++ noun)) := by
  constructor
  · cases conventional <;> simp only [generate_commit_message, if_true, if_false]
    · apply append_ne_empty_of_left_ne
      apply append_ne_empty_of_right_ne
      decide
    · apply append_ne_empty_of_left_ne
      decide
  · intro hc
    subst hc
    simp [generate_commit_message]

/-- Witness for C9 at a concrete input. -/
theorem generated_message_nonempty_and_feat_witness :
    generate_commit_message "feat: \x7b\x7d" true "great" "idea" ≠ "" ∧
    generate_commit_message "feat: \x7b\x7d" true "great" "idea" =
      "feat: " ++ ("great" ++ "-" ++ "idea") :=
  ⟨(generated_message_nonempty_and_feat "feat: \x7b\x7d" true "great" "idea").1,
   (generated_message_nonempty_and_feat "feat: \x7b\x7d" true "great" "idea").2 rfl⟩

/-- C8: whenever the init action runs (configuration loaded, repository check
passed), it writes the serialized default configuration to
`git-automate.toml`, and loading that exact text back yields the built-in
default record (`origin` / `feat: {}` / auto-pull on). -/
theorem init_round_trips_to_default (w : World) (v dry : Bool) (cfg : Config)
    (hcfg : load_config w.configFile = Except.ok cfg)
    (out0 : Output) (h0 : w.oracle 0 = SpawnResult.ok out0)
    (h0s : out0.success = true) :
    (main ⟨Commands.init, v, dry⟩ w).1 = Except.ok () ∧
    Event.writeFile "git-automate.toml" (toml_to_string_pretty Config.default) ∈
      (main ⟨Commands.init, v, dry⟩ w).2.events ∧
    load_config (some (toml_to_string_pretty Config.default)) =
      Except.ok Config.default := by
  refine ⟨?_, ?_, ?_⟩
  · simp [main, hcfg, GitOps.check_git_repo, run_git, initSt, emit, h0, h0s]
  · simp [main, hcfg, GitOps.check_git_repo, run_git, initSt, emit, h0, h0s]
  · rfl

/-- Witness for C8 at a concrete world. -/
theorem init_round_trips_to_default_witness :
    (main ⟨Commands.init, false, false⟩
        ⟨none, fun _ => SpawnResult.ok ⟨true, "", ""⟩, "great", "idea"⟩).1 =
      Except.ok () ∧
    Event.writeFile "git-automate.toml" (toml_to_string_pretty Config.default) ∈
      (main ⟨Commands.init, false, false⟩
        ⟨none, fun _ => SpawnResult.ok ⟨true, "", ""⟩, "great", "idea"⟩).2.events ∧
    load_config (some (toml_to_string_pretty Config.default)) =
      Except.ok Config.default :=
  init_round_trips_to_default
    ⟨none, fun _ => SpawnResult.ok ⟨true, "", ""⟩, "great", "idea"⟩
    false false Config.default rfl ⟨true, "", ""⟩ rfl rfl

/-- C10: the init action does not consult the dry-run flag: for either value
of `dry`, once the repository check passes the run emits exactly the same
trace, overwriting `git-automate.toml` with the serialized defaults. -/
theorem init_ignores_dry_run (w : World) (v : Bool) (cfg : Config)
    (hcfg : load_config w.configFile = Except.ok cfg)
    (out0 : Output) (h0 : w.oracle 0 = SpawnResult.ok out0)
    (h0s : out0.success = true) (dry : Bool) :
    (main ⟨Commands.init, v, dry⟩ w).2.events =
      [Event.spawn ["rev-parse", "--is-inside-work-tree"],
       Event.writeFile "git-automate.toml" (toml_to_string_pretty Config.default),
       Event.logInfo "Initialized configuration file"] ∧
    (main ⟨Commands.init, v, dry⟩ w).1 = Except.ok () := by
  constructor <;>
    simp [main, hcfg, GitOps.check_git_repo, run_git, initSt, emit, h0, h0s]

/-- Witness for C10 with the dry-run flag set. -/
theorem init_ignores_dry_run_witness :
    (main ⟨Commands.init, false, true⟩
        ⟨none, fun _ => SpawnResult.ok ⟨true, "", ""⟩, "great", "idea"⟩).2.events =
      [Event.spawn ["rev-parse", "--is-inside-work-tree"],
       Event.writeFile "git-automate.toml" (toml_to_string_pretty Config.default),
       Event.logInfo "Initialized configuration file"] ∧
    (main ⟨Commands.init, false, true⟩
        ⟨none, fun _ => SpawnResult.ok ⟨true, "", ""⟩, "great", "idea"⟩).1 =
      Except.ok () :=
  init_ignores_dry_run
    ⟨none, fun _ => SpawnResult.ok ⟨true, "", ""⟩, "great", "idea"⟩
    false Config.default rfl ⟨true, "", ""⟩ rfl rfl true

/-- C1: with no configuration file (so auto-pull is on and the remote is
"origin"), no explicit message, conventional off, and every git call
succeeding with one modified tracked file showing in the status output, the
run launches exactly: repository check, pull, add ".", change check, commit
with the generated message, current-branch query, push of that branch to
"origin" — and exits with code 0. -/
theorem commit_end_to_end_sequence (w : World) (v : Bool)
    (hcfg : w.configFile = none)
    (out0 out1 out2 out3 out4 out5 out6 : Output)
    (h0 : w.oracle 0 = SpawnResult.ok out0) (h0s : out0.success = true)
    (h1 : w.oracle 1 = SpawnResult.ok out1) (h1s : out1.success = true)
    (h2 : w.oracle 2 = SpawnResult.ok out2) (h2s : out2.success = true)
    (h3 : w.oracle 3 = SpawnResult.ok out3) (h3s : out3.stdout.isEmpty = false)
    (h4 : w.oracle 4 = SpawnResult.ok out4) (h4s : out4.success = true)
    (h5 : w.oracle 5 = SpawnResult.ok out5)
    (h6 : w.oracle 6 = SpawnResult.ok out6) (h6s : out6.success = true) :
    (main ⟨Commands.commit none none false, v, false⟩ w).1 = Except.ok () ∧
    spawns (main ⟨Commands.commit none none false, v, false⟩ w).2.events =
      [["rev-parse", "--is-inside-work-tree"],
       ["pull"],
       ["add", "."],
       ["status", "--porcelain"],
       ["commit", "-m", w.adj ++ "-" ++ w.noun],
       ["rev-parse", "--abbrev-ref", "HEAD"],
       ["push", "origin", strTrim out5.stdout]] := by
  constructor <;>
    simp [main, load_config, hcfg, GitOps.check_git_repo, GitOps.pull,
      GitOps.add_files, GitOps.has_changes, GitOps.commit,
      GitOps.get_current_branch, GitOps.push, run_git, emit, initSt, spawns,
      Config.default, generate_commit_message,
      h0, h0s, h1, h1s, h2, h2s, h3, h3s, h4, h4s, h5, h6, h6s]

/-- Concrete world for the C1 witness: one modified tracked file, branch
`main`, every call succeeding. -/
def wC1 : World :=
  { configFile := none
    adj := "great"
    noun := "idea"
    oracle := fun n =>
      if n = 3 then SpawnResult.ok ⟨true, " M file.txt\n", ""⟩
      else if n = 5 then SpawnResult.ok ⟨true, "main\n", ""⟩
      else SpawnResult.ok ⟨true, "", ""⟩ }

/-- Witness for C1 at the concrete world `wC1`. -/
theorem commit_end_to_end_sequence_witness :
    (main ⟨Commands.commit none none false, false, false⟩ wC1).1 =
      Except.ok () ∧
    spawns (main ⟨Commands.commit none none false, false, false⟩ wC1).2.events =
      [["rev-parse", "--is-inside-work-tree"],
       ["pull"],
       ["add", "."],
       ["status", "--porcelain"],
       ["commit", "-m", wC1.adj ++ "-" ++ wC1.noun],
       ["rev-parse", "--abbrev-ref", "HEAD"],
       ["push", "origin", strTrim "main\n"]] :=
  commit_end_to_end_sequence wC1 false rfl
    ⟨true, "", ""⟩ ⟨true, "", ""⟩ ⟨true, "", ""⟩ ⟨true, " M file.txt\n", ""⟩
    ⟨true, "", ""⟩ ⟨true, "main\n", ""⟩ ⟨true, "", ""⟩
    rfl rfl rfl rfl rfl rfl rfl (by decide) rfl rfl rfl rfl rfl

/-- C6: in a commit run where the change check after staging reports no
changes (empty status output), the program exits with code 0, warns
"No changes to commit", and the only subprocesses launched are the
repository check, possibly pull, the add, and the change check — no commit,
no push, no branch query. -/
theorem commit_no_changes_terminates_ok (w : World) (v : Bool)
    (message : Option String) (files : Option (List String))
    (conventional : Bool) (cfg : Config)
    (hcfg : load_config w.configFile = Except.ok cfg)
    (out0 outP outA outS : Output)
    (h0 : w.oracle 0 = SpawnResult.ok out0) (h0s : out0.success = true)
    (hP : cfg.auto_pull = true → w.oracle 1 = SpawnResult.ok outP)
    (hPs : cfg.auto_pull = true → outP.success = true)
    (hA : w.oracle (if cfg.auto_pull then 2 else 1) = SpawnResult.ok outA)
    (hAs : outA.success = true)
    (hS : w.oracle (if cfg.auto_pull then 3 else 2) = SpawnResult.ok outS)
    (hSe : outS.stdout.isEmpty = true) :
    (main ⟨Commands.commit message files conventional, v, false⟩ w).1 =
      Except.ok () ∧
    Event.logWarn "No changes to commit" ∈
      (main ⟨Commands.commit message files conventional, v, false⟩ w).2.events ∧
    ∀ a ∈ spawns
        (main ⟨Commands.commit message files conventional, v, false⟩ w).2.events,
      a = ["rev-parse", "--is-inside-work-tree"] ∨ a = ["pull"] ∨
      a = "add" :: files.getD ["."] ∨ a = ["status", "--porcelain"] := by
  cases hap : cfg.auto_pull with
  | false =>
    rw [hap] at hA hS
    simp only [if_false, Bool.false_eq_true] at hA hS
    refine ⟨?_, ?_, ?_⟩ <;>
      simp [main, hcfg, hap, GitOps.check_git_repo, GitOps.pull,
        GitOps.add_files, GitOps.has_changes, run_git, emit, initSt, spawns,
        h0, h0s, hA, hAs, hS, hSe]
  | true =>
    have hP1 := hP hap
    have hP2 := hPs hap
    rw [hap] at hA hS
    simp only [if_true] at hA hS
    refine ⟨?_, ?_, ?_⟩ <;>
      simp [main, hcfg, hap, GitOps.check_git_repo, GitOps.pull,
        GitOps.add_files, GitOps.has_changes, run_git, emit, initSt, spawns,
        h0, h0s, hP1, hP2, hA, hAs, hS, hSe]

/-- Concrete world for the C6 witness: default configuration, clean tree. -/
def wC6 : World :=
  { configFile := none
    adj := "great"
    noun := "idea"
    oracle := fun _ => SpawnResult.ok ⟨true, "", ""⟩ }

/-- Witness for C6 at the concrete world `wC6`. -/
theorem commit_no_changes_terminates_ok_witness :
    (main ⟨Commands.commit none none false, false, false⟩ wC6).1 =
      Except.ok () ∧
    Event.logWarn "No changes to commit" ∈
      (main ⟨Commands.commit none none false, false, false⟩ wC6).2.events ∧
    ∀ a ∈ spawns
        (main ⟨Commands.commit none none false, false, false⟩ wC6).2.events,
      a = ["rev-parse", "--is-inside-work-tree"] ∨ a = ["pull"] ∨
      a = "add" :: (none : Option (List String)).getD ["."] ∨
      a = ["status", "--porcelain"] :=
  commit_no_changes_terminates_ok wC6 false none none false Config.default rfl
    ⟨true, "", ""⟩ ⟨true, "", ""⟩ ⟨true, "", ""⟩ ⟨true, "", ""⟩
    rfl rfl (fun _ => rfl) (fun _ => rfl) rfl rfl rfl rfl

/-- C7: when the user supplies an explicit commit message, the commit
subprocess is invoked with exactly that message, and the run is entirely
independent of the words the random name generator would have produced. -/
theorem commit_explicit_message_verbatim (w : World) (v : Bool) (m : String)
    (files : Option (List String)) (conventional : Bool) (cfg : Config)
    (hcfg : load_config w.configFile = Except.ok cfg)
    (out0 outP outA outS outC outB outQ : Output)
    (h0 : w.oracle 0 = SpawnResult.ok out0) (h0s : out0.success = true)
    (hP : cfg.auto_pull = true → w.oracle 1 = SpawnResult.ok outP)
    (hPs : cfg.auto_pull = true → outP.success = true)
    (hA : w.oracle (if cfg.auto_pull then 2 else 1) = SpawnResult.ok outA)
    (hAs : outA.success = true)
    (hS : w.oracle (if cfg.auto_pull then 3 else 2) = SpawnResult.ok outS)
    (hSe : outS.stdout.isEmpty = false)
    (hC : w.oracle (if cfg.auto_pull then 4 else 3) = SpawnResult.ok outC)
    (hCs : outC.success = true)
    (hB : w.oracle (if cfg.auto_pull then 5 else 4) = SpawnResult.ok outB)
    (hQ : w.oracle (if cfg.auto_pull then 6 else 5) = SpawnResult.ok outQ)
    (hQs : outQ.success = true)
    (adj2 noun2 : String) :
    ["commit", "-m", m] ∈
      spawns (main ⟨Commands.commit (some m) files conventional, v, false⟩ w).2.events ∧
    main ⟨Commands.commit (some m) files conventional, v, false⟩
        ⟨w.configFile, w.oracle, adj2, noun2⟩ =
      main ⟨Commands.commit (some m) files conventional, v, false⟩ w := by
  cases hap : cfg.auto_pull with
  | false =>
    rw [hap] at hA hS hC hB hQ
    simp only [if_false, Bool.false_eq_true] at hA hS hC hB hQ
    constructor <;>
      simp [main, hcfg, hap, GitOps.check_git_repo, GitOps.pull,
        GitOps.add_files, GitOps.has_changes, GitOps.commit,
        GitOps.get_current_branch, GitOps.push, run_git, emit, initSt, spawns,
        h0, h0s, hA, hAs, hS, hSe, hC, hCs, hB, hQ, hQs]
  | true =>
    have hP1 := hP hap
    have hP2 := hPs hap
    rw [hap] at hA hS hC hB hQ
    simp only [if_true] at hA hS hC hB hQ
    constructor <;>
      simp [main, hcfg, hap, GitOps.check_git_repo, GitOps.pull,
        GitOps.add_files, GitOps.has_changes, GitOps.commit,
        GitOps.get_current_branch, GitOps.push, run_git, emit, initSt, spawns,
        h0, h0s, hP1, hP2, hA, hAs, hS, hSe, hC, hCs, hB, hQ, hQs]

/-- Concrete world for the C7 witness: one modified file, branch `main`. -/
def wC7 : World :=
  { configFile := none
    adj := "great"
    noun := "idea"
    oracle := fun n =>
      if n = 3 then SpawnResult.ok ⟨true, " M file.txt\n", ""⟩
      else if n = 5 then SpawnResult.ok ⟨true, "main\n", ""⟩
      else SpawnResult.ok ⟨true, "", ""⟩ }

/-- Witness for C7 at the concrete world `wC7` and the literal message
"fix the bug". -/
theorem commit_explicit_message_verbatim_witness :
    ["commit", "-m", "fix the bug"] ∈
      spawns (main ⟨Commands.commit (some "fix the bug") none false, false, false⟩
        wC7).2.events ∧
    main ⟨Commands.commit (some "fix the bug") none false, false, false⟩
        ⟨wC7.configFile, wC7.oracle, "other", "words"⟩ =
      main ⟨Commands.commit (some "fix the bug") none false, false, false⟩ wC7 :=
  commit_explicit_message_verbatim wC7 false "fix the bug" none false
    Config.default rfl
    ⟨true, "", ""⟩ ⟨true, "", ""⟩ ⟨true, "", ""⟩
    ⟨true, " M file.txt\n", ""⟩ ⟨true, "", ""⟩ ⟨true, "main\n", ""⟩
    ⟨true, "", ""⟩
    rfl rfl (fun _ => rfl) (fun _ => rfl) rfl rfl rfl (by decide) rfl rfl rfl
    rfl rfl "other" "words"

/-- Concrete world for the C3 counterexample: the current-branch query and
the change-presence query both exit non-zero. -/
def wC3 : World :=
  { configFile := none
    adj := "a"
    noun := "b"
    oracle := fun n =>
      if n = 0 then SpawnResult.ok ⟨true, "true\n", ""⟩
      else if n = 1 then SpawnResult.ok ⟨false, "main\n", "fatal: bad revision"⟩
      else SpawnResult.ok ⟨false, "", "fatal: unsafe repository"⟩ }

/-- C3 counterexample: in a status run both the current-branch query and the
change-presence query are real (non-dry-run) subprocesses that exit non-zero,
yet the program exits with code 0 — those operations do not surface the
non-zero exit as an error. -/
theorem queries_ignore_nonzero_exit_counterexample :
    wC3.oracle 1 = SpawnResult.ok ⟨false, "main\n", "fatal: bad revision"⟩ ∧
    wC3.oracle 2 = SpawnResult.ok ⟨false, "", "fatal: unsafe repository"⟩ ∧
    spawns (main ⟨Commands.status, false, false⟩ wC3).2.events =
      [["rev-parse", "--is-inside-work-tree"],
       ["rev-parse", "--abbrev-ref", "HEAD"],
       ["status", "--porcelain"]] ∧
    (main ⟨Commands.status, false, false⟩ wC3).1 = Except.ok () :=
  ⟨rfl, rfl, by decide, rfl⟩

/-- C3 amended: the seven mutating operations (pull, add, commit, push,
branch create/switch/delete) surface a non-zero exit of their non-dry-run
subprocess as an error carrying the captured stderr text; the current-branch
query and the change-presence query, however, never inspect the exit status:
they return the trimmed stdout, respectively the non-emptiness of stdout,
even when the subprocess exited non-zero. -/
theorem nonzero_exit_error_semantics :
    (∀ (g : GitOps) (s : St) (out : Output), g.dry_run = false →
      s.oracle s.calls = SpawnResult.ok out → out.success = false →
      (g.pull s).1 = Except.error ("Pull failed: " ++ out.stderr)) ∧
    (∀ (g : GitOps) (files : List String) (s : St) (out : Output),
      g.dry_run = false → s.oracle s.calls = SpawnResult.ok out →
      out.success = false →
      (g.add_files files s).1 = Except.error ("Add failed: " ++ out.stderr)) ∧
    (∀ (g : GitOps) (m : String) (s : St) (out : Output), g.dry_run = false →
      s.oracle s.calls = SpawnResult.ok out → out.success = false →
      (g.commit m s).1 = Except.error ("Commit failed: " ++ out.stderr)) ∧
    (∀ (g : GitOps) (b : String) (s : St) (out : Output), g.dry_run = false →
      s.oracle s.calls = SpawnResult.ok out → out.success = false →
      (g.push b s).1 = Except.error ("Push failed: " ++ out.stderr)) ∧
    (∀ (g : GitOps) (n : String) (s : St) (out : Output), g.dry_run = false →
      s.oracle s.calls = SpawnResult.ok out → out.success = false →
      (g.create_branch n s).1 =
        Except.error ("Branch creation failed: " ++ out.stderr)) ∧
    (∀ (g : GitOps) (n : String) (s : St) (out : Output), g.dry_run = false →
      s.oracle s.calls = SpawnResult.ok out → out.success = false →
      (g.switch_branch n s).1 =
        Except.error ("Branch switch failed: " ++ out.stderr)) ∧
    (∀ (g : GitOps) (n : String) (s : St) (out : Output), g.dry_run = false →
      s.oracle s.calls = SpawnResult.ok out → out.success = false →
      (g.delete_branch n s).1 =
        Except.error ("Branch deletion failed: " ++ out.stderr)) ∧
    (∀ (g : GitOps) (s : St) (out : Output),
      s.oracle s.calls = SpawnResult.ok out →
      (g.get_current_branch s).1 = Except.ok (strTrim out.stdout)) ∧
    (∀ (g : GitOps) (s : St) (out : Output),
      s.oracle s.calls = SpawnResult.ok out →
      (g.has_changes s).1 = Except.ok (!out.stdout.isEmpty)) := by
  refine ⟨?_, ?_, ?_, ?_, ?_, ?_, ?_, ?_, ?_⟩
  · intro g s out hd ho hs
    simp [GitOps.pull, run_git, hd, ho, hs]
  · intro g files s out hd ho hs
    simp [GitOps.add_files, run_git, hd, ho, hs]
  · intro g m s out hd ho hs
    simp [GitOps.commit, run_git, hd, ho, hs]
  · intro g b s out hd ho hs
    simp [GitOps.push, run_git, hd, ho, hs]
  · intro g n s out hd ho hs
    simp [GitOps.create_branch, run_git, hd, ho, hs]
  · intro g n s out hd ho hs
    simp [GitOps.switch_branch, run_git, hd, ho, hs]
  · intro g n s out hd ho hs
    simp [GitOps.delete_branch, run_git, hd, ho, hs]
  · intro g s out ho
    simp [GitOps.get_current_branch, run_git, ho]
  · intro g s out ho
    simp [GitOps.has_changes, run_git, ho]

/-- Concrete execution state for the C3 amended-theorem witness: the next
subprocess exits non-zero with stderr "boom" and stdout "main\n". -/
def stC3 : St :=
  { oracle := fun _ => SpawnResult.ok ⟨false, "main\n", "boom"⟩
    calls := 0
    events := [] }

/-- Witness for the C3 amended theorem at concrete inputs. -/
theorem nonzero_exit_error_semantics_witness :
    (GitOps.pull ⟨Config.default, false⟩ stC3).1 =
      Except.error ("Pull failed: " ++ "boom") ∧
    (GitOps.get_current_branch ⟨Config.default, false⟩ stC3).1 =
      Except.ok (strTrim "main\n") ∧
    (GitOps.has_changes ⟨Config.default, false⟩ stC3).1 =
      Except.ok (!"main\n".isEmpty) :=
  ⟨nonzero_exit_error_semantics.1 ⟨Config.default, false⟩ stC3
      ⟨false, "main\n", "boom"⟩ rfl rfl rfl,
   nonzero_exit_error_semantics.2.2.2.2.2.2.2.1 ⟨Config.default, false⟩ stC3
      ⟨false, "main\n", "boom"⟩ rfl,
   nonzero_exit_error_semantics.2.2.2.2.2.2.2.2 ⟨Config.default, false⟩ stC3
      ⟨false, "main\n", "boom"⟩ rfl⟩

/-- Concrete world for the C4 counterexample: every attempt to launch git
fails at the process level. -/
def wC4 : World :=
  { configFile := none
    adj := "a"
    noun := "b"
    oracle := fun _ =>
      SpawnResult.launchFailure "No such file or directory (os error 2)" }

/-- C4 counterexample: when the git executable cannot be launched at all, the
repository check swallows the launch failure and the program reports exactly
"Not in a git repository" — contrary to the claim that a launch failure is
kept distinct there. -/
theorem launch_failure_reported_as_not_a_repo :
    wC4.oracle 0 =
      SpawnResult.launchFailure "No such file or directory (os error 2)" ∧
    (main ⟨Commands.status, false, false⟩ wC4).1 =
      Except.error "Not in a git repository" :=
  ⟨rfl, rfl⟩

lemma append_head_ne {a b : String} {c d : Char} {as bs : List Char}
    (ha : a.data = c :: as) (hb : b.data = d :: bs) (hcd : c ≠ d)
    (e f : String) : a ++ e ≠ b ++ f := by
  intro h
  have h3 := congrArg String.data h
  rw [data_append, data_append, ha, hb] at h3
  simp only [List.cons_append, List.cons.injEq] at h3
  exact hcd h3.1

/-- C4 amended: every operation other than the repository check distinguishes
a launch failure (error "Failed to <op>: <e>") from a normal non-zero exit
(error "<Op> failed: <stderr>") — for each of the seven mutating operations
the two messages are provably different for all payloads — but
`check_git_repo` collapses a launch failure to `false`, so a run whose very
first git launch fails is reported as "Not in a git repository". -/
theorem launch_failure_semantics :
    (∀ (g : GitOps) (s : St) (e : String),
      s.oracle s.calls = SpawnResult.launchFailure e →
      (g.check_git_repo s).1 = false) ∧
    (∀ (cli : Cli) (w : World) (cfg : Config) (e : String),
      load_config w.configFile = Except.ok cfg →
      w.oracle 0 = SpawnResult.launchFailure e →
      (main cli w).1 = Except.error "Not in a git repository") ∧
    (∀ (g : GitOps) (s : St) (e : String), g.dry_run = false →
      s.oracle s.calls = SpawnResult.launchFailure e →
      (g.pull s).1 = Except.error ("Failed to pull changes: " ++ e)) ∧
    (∀ (g : GitOps) (files : List String) (s : St) (e : String),
      g.dry_run = false →
      s.oracle s.calls = SpawnResult.launchFailure e →
      (g.add_files files s).1 = Except.error ("Failed to add files: " ++ e)) ∧
    (∀ (g : GitOps) (m : String) (s : St) (e : String), g.dry_run = false →
      s.oracle s.calls = SpawnResult.launchFailure e →
      (g.commit m s).1 = Except.error ("Failed to commit: " ++ e)) ∧
    (∀ (g : GitOps) (b : String) (s : St) (e : String), g.dry_run = false →
      s.oracle s.calls = SpawnResult.launchFailure e →
      (g.push b s).1 = Except.error ("Failed to push: " ++ e)) ∧
    (∀ (g : GitOps) (n : String) (s : St) (e : String), g.dry_run = false →
      s.oracle s.calls = SpawnResult.launchFailure e →
      (g.create_branch n s).1 =
        Except.error ("Failed to create branch: " ++ e)) ∧
    (∀ (g : GitOps) (n : String) (s : St) (e : String), g.dry_run = false →
      s.oracle s.calls = SpawnResult.launchFailure e →
      (g.switch_branch n s).1 =
        Except.error ("Failed to switch branch: " ++ e)) ∧
    (∀ (g : GitOps) (n : String) (s : St) (e : String), g.dry_run = false →
      s.oracle s.calls = SpawnResult.launchFailure e →
      (g.delete_branch n s).1 =
        Except.error ("Failed to delete branch: " ++ e)) ∧
    (∀ (g : GitOps) (s : St) (e : String),
      s.oracle s.calls = SpawnResult.launchFailure e →
      (g.get_current_branch s).1 =
        Except.error ("Failed to get current branch: " ++ e)) ∧
    (∀ (g : GitOps) (s : St) (e : String),
      s.oracle s.calls = SpawnResult.launchFailure e →
      (g.has_changes s).1 =
        Except.error ("Failed to check git status: " ++ e)) ∧
    (∀ (e f : String),
      Except.error ("Failed to pull changes: " ++ e) ≠
        (Except.error ("Pull failed: " ++ f) : Except String Unit)) ∧
    (∀ (e f : String),
      Except.error ("Failed to add files: " ++ e) ≠
        (Except.error ("Add failed: " ++ f) : Except String Unit)) ∧
    (∀ (e f : String),
      Except.error ("Failed to commit: " ++ e) ≠
        (Except.error ("Commit failed: " ++ f) : Except String Unit)) ∧
    (∀ (e f : String),
      Except.error ("Failed to push: " ++ e) ≠
        (Except.error ("Push failed: " ++ f) : Except String Unit)) ∧
    (∀ (e f : String),
      Except.error ("Failed to create branch: " ++ e) ≠
        (Except.error ("Branch creation failed: " ++ f) :
          Except String Unit)) ∧
    (∀ (e f : String),
      Except.error ("Failed to switch branch: " ++ e) ≠
        (Except.error ("Branch switch failed: " ++ f) :
          Except String Unit)) ∧
    (∀ (e f : String),
      Except.error ("Failed to delete branch: " ++ e) ≠
        (Except.error ("Branch deletion failed: " ++ f) :
          Except String Unit)) := by
  refine ⟨?_, ?_, ?_, ?_, ?_, ?_, ?_, ?_, ?_, ?_, ?_, ?_, ?_, ?_, ?_, ?_,
    ?_, ?_⟩
  · intro g s e ho
    simp [GitOps.check_git_repo, run_git, ho]
  · intro cli w cfg e hcfg h0
    simp [main, hcfg, GitOps.check_git_repo, run_git, initSt, emit, h0]
  · intro g s e hd ho
    simp [GitOps.pull, run_git, hd, ho]
  · intro g files s e hd ho
    simp [GitOps.add_files, run_git, hd, ho]
  · intro g m s e hd ho
    simp [GitOps.commit, run_git, hd, ho]
  · intro g b s e hd ho
    simp [GitOps.push, run_git, hd, ho]
  · intro g n s e hd ho
    simp [GitOps.create_branch, run_git, hd, ho]
  · intro g n s e hd ho
    simp [GitOps.switch_branch, run_git, hd, ho]
  · intro g n s e hd ho
    simp [GitOps.delete_branch, run_git, hd, ho]
  · intro g s e ho
    simp [GitOps.get_current_branch, run_git, ho]
  · intro g s e ho
    simp [GitOps.has_changes, run_git, ho]
  · intro e f h
    have h2 : ("Failed to pull changes: " ++ e) = ("Pull failed: " ++ f) := by
      injection h
    exact append_head_ne (c := 'F') (d := 'P') rfl rfl (by decide) e f h2
  · intro e f h
    have h2 : ("Failed to add files: " ++ e) = ("Add failed: " ++ f) := by
      injection h
    exact append_head_ne (c := 'F') (d := 'A') rfl rfl (by decide) e f h2
  · intro e f h
    have h2 : ("Failed to commit: " ++ e) = ("Commit failed: " ++ f) := by
      injection h
    exact append_head_ne (c := 'F') (d := 'C') rfl rfl (by decide) e f h2
  · intro e f h
    have h2 : ("Failed to push: " ++ e) = ("Push failed: " ++ f) := by
      injection h
    exact append_head_ne (c := 'F') (d := 'P') rfl rfl (by decide) e f h2
  · intro e f h
    have h2 : ("Failed to create branch: " ++ e) =
        ("Branch creation failed: " ++ f) := by
      injection h
    exact append_head_ne (c := 'F') (d := 'B') rfl rfl (by decide) e f h2
  · intro e f h
    have h2 : ("Failed to switch branch: " ++ e) =
        ("Branch switch failed: " ++ f) := by
      injection h
    exact append_head_ne (c := 'F') (d := 'B') rfl rfl (by decide) e f h2
  · intro e f h
    have h2 : ("Failed to delete branch: " ++ e) =
        ("Branch deletion failed: " ++ f) := by
      injection h
    exact append_head_ne (c := 'F') (d := 'B') rfl rfl (by decide) e f h2

/-- Concrete execution state for the C4 amended-theorem witness. -/
def stC4 : St :=
  { oracle := fun _ => SpawnResult.launchFailure "no git"
    calls := 0
    events := [] }

/-- Witness for the C4 amended theorem: every conjunct instantiated at
concrete inputs. -/
theorem launch_failure_semantics_witness :
    (GitOps.check_git_repo ⟨Config.default, false⟩ stC4).1 = false ∧
    (main ⟨Commands.status, false, false⟩ wC4).1 =
      Except.error "Not in a git repository" ∧
    (GitOps.pull ⟨Config.default, false⟩ stC4).1 =
      Except.error ("Failed to pull changes: " ++ "no git") ∧
    (GitOps.add_files ⟨Config.default, false⟩ ["."] stC4).1 =
      Except.error ("Failed to add files: " ++ "no git") ∧
    (GitOps.commit ⟨Config.default, false⟩ "msg" stC4).1 =
      Except.error ("Failed to commit: " ++ "no git") ∧
    (GitOps.push ⟨Config.default, false⟩ "main" stC4).1 =
      Except.error ("Failed to push: " ++ "no git") ∧
    (GitOps.create_branch ⟨Config.default, false⟩ "dev" stC4).1 =
      Except.error ("Failed to create branch: " ++ "no git") ∧
    (GitOps.switch_branch ⟨Config.default, false⟩ "dev" stC4).1 =
      Except.error ("Failed to switch branch: " ++ "no git") ∧
    (GitOps.delete_branch ⟨Config.default, false⟩ "dev" stC4).1 =
      Except.error ("Failed to delete branch: " ++ "no git") ∧
    (GitOps.get_current_branch ⟨Config.default, false⟩ stC4).1 =
      Except.error ("Failed to get current branch: " ++ "no git") ∧
    (GitOps.has_changes ⟨Config.default, false⟩ stC4).1 =
      Except.error ("Failed to check git status: " ++ "no git") ∧
    Except.error ("Failed to pull changes: " ++ "x") ≠
      (Except.error ("Pull failed: " ++ "y") : Except String Unit) ∧
    Except.error ("Failed to add files: " ++ "x") ≠
      (Except.error ("Add failed: " ++ "y") : Except String Unit) ∧
    Except.error ("Failed to commit: " ++ "x") ≠
      (Except.error ("Commit failed: " ++ "y") : Except String Unit) ∧
    Except.error ("Failed to push: " ++ "x") ≠
      (Except.error ("Push failed: " ++ "y") : Except String Unit) ∧
    Except.error ("Failed to create branch: " ++ "x") ≠
      (Except.error ("Branch creation failed: " ++ "y") :
        Except String Unit) ∧
    Except.error ("Failed to switch branch: " ++ "x") ≠
      (Except.error ("Branch switch failed: " ++ "y") :
        Except String Unit) ∧
    Except.error ("Failed to delete branch: " ++ "x") ≠
      (Except.error ("Branch deletion failed: " ++ "y") :
        Except String Unit) :=
  ⟨launch_failure_semantics.1 ⟨Config.default, false⟩ stC4 "no git" rfl,
   launch_failure_semantics.2.1 ⟨Commands.status, false, false⟩ wC4
     Config.default "No such file or directory (os error 2)" rfl rfl,
   launch_failure_semantics.2.2.1 ⟨Config.default, false⟩ stC4 "no git"
     rfl rfl,
   launch_failure_semantics.2.2.2.1 ⟨Config.default, false⟩ ["."] stC4
     "no git" rfl rfl,
   launch_failure_semantics.2.2.2.2.1 ⟨Config.default, false⟩ "msg" stC4
     "no git" rfl rfl,
   launch_failure_semantics.2.2.2.2.2.1 ⟨Config.default, false⟩ "main" stC4
     "no git" rfl rfl,
   launch_failure_semantics.2.2.2.2.2.2.1 ⟨Config.default, false⟩ "dev" stC4
     "no git" rfl rfl,
   launch_failure_semantics.2.2.2.2.2.2.2.1 ⟨Config.default, false⟩ "dev"
     stC4 "no git" rfl rfl,
   launch_failure_semantics.2.2.2.2.2.2.2.2.1 ⟨Config.default, false⟩ "dev"
     stC4 "no git" rfl rfl,
   launch_failure_semantics.2.2.2.2.2.2.2.2.2.1 ⟨Config.default, false⟩ stC4
     "no git" rfl,
   launch_failure_semantics.2.2.2.2.2.2.2.2.2.2.1 ⟨Config.default, false⟩
     stC4 "no git" rfl,
   launch_failure_semantics.2.2.2.2.2.2.2.2.2.2.2.1 "x" "y",
   launch_failure_semantics.2.2.2.2.2.2.2.2.2.2.2.2.1 "x" "y",
   launch_failure_semantics.2.2.2.2.2.2.2.2.2.2.2.2.2.1 "x" "y",
   launch_failure_semantics.2.2.2.2.2.2.2.2.2.2.2.2.2.2.1 "x" "y",
   launch_failure_semantics.2.2.2.2.2.2.2.2.2.2.2.2.2.2.2.1 "x" "y",
   launch_failure_semantics.2.2.2.2.2.2.2.2.2.2.2.2.2.2.2.2.1 "x" "y",
   launch_failure_semantics.2.2.2.2.2.2.2.2.2.2.2.2.2.2.2.2.2 "x" "y"⟩

/-- Concrete world for the C5 counterexample: the working directory is
outside any repository (the repo check would fail) AND the configuration
file on disk is malformed. -/
def wC5bad : World :=
  { configFile := some "this is not toml"
    adj := "a"
    noun := "b"
    oracle := fun _ =>
      SpawnResult.ok ⟨false, "", "fatal: not a git repository"⟩ }

/-- C5 counterexample: outside a repository with a malformed configuration
file, the program fails with the configuration parse error, not with
"not a repository", and launches no subprocess at all — configuration
loading precedes the repository check. -/
theorem malformed_config_error_precedes_repo_check :
    wC5bad.configFile = some "this is not toml" ∧
    wC5bad.oracle 0 = SpawnResult.ok ⟨false, "", "fatal: not a git repository"⟩ ∧
    (main ⟨Commands.status, false, false⟩ wC5bad).1 =
      Except.error "Failed to parse config file" ∧
    (main ⟨Commands.status, false, false⟩ wC5bad).2.events = [] :=
  ⟨rfl, rfl, rfl, rfl⟩

/-- C5 amended: once the configuration has loaded successfully, an invocation
whose repository check does not succeed (launch failure or non-zero exit)
fails with "Not in a git repository" for every action, and its trace is
exactly the repository-check spawn plus the error log — no further
subprocess. A malformed configuration file, however, fails before the
repository check with a parse error (see the counterexample). -/
theorem outside_repo_fails_after_config_load (cli : Cli) (w : World)
    (cfg : Config) (hcfg : load_config w.configFile = Except.ok cfg)
    (h0 : ∀ out, w.oracle 0 = SpawnResult.ok out → out.success = false) :
    (main cli w).1 = Except.error "Not in a git repository" ∧
    (main cli w).2.events =
      [Event.spawn ["rev-parse", "--is-inside-work-tree"],
       Event.logError "Not in a git repository"] := by
  rcases hx : w.oracle 0 with e | out
  · constructor <;>
      simp [main, hcfg, GitOps.check_git_repo, run_git, initSt, emit, hx]
  · have hs := h0 out hx
    constructor <;>
      simp [main, hcfg, GitOps.check_git_repo, run_git, initSt, emit, hx, hs]

/-- Concrete world for the C5 amended-theorem witness: well-formed loadable
state, outside a repository. -/
def wC5 : World :=
  { configFile := none
    adj := "a"
    noun := "b"
    oracle := fun _ =>
      SpawnResult.ok ⟨false, "", "fatal: not a git repository"⟩ }

/-- Witness for the C5 amended theorem at a concrete world. -/
theorem outside_repo_fails_after_config_load_witness :
    (main ⟨Commands.status, false, false⟩ wC5).1 =
      Except.error "Not in a git repository" ∧
    (main ⟨Commands.status, false, false⟩ wC5).2.events =
      [Event.spawn ["rev-parse", "--is-inside-work-tree"],
       Event.logError "Not in a git repository"] :=
  outside_repo_fails_after_config_load ⟨Commands.status, false, false⟩ wC5
    Config.default rfl
    (fun out h => by injection h with h2; rw [← h2])

/-- C2: with the dry-run flag set, every subprocess actually launched in any
invocation is one of the three read-only queries (repository check,
current-branch query, change detection) — no pull, add, commit, push or
branch mutation is ever spawned — and, conversely, in a dry-run commit
invocation the read-only queries still execute as real subprocesses: the
trace contains exactly the repository check, the change check and the
current-branch query. -/
theorem dry_run_spawns_only_read_only :
    (∀ (cmd : Commands) (v : Bool) (w : World),
      ∀ a ∈ spawns (main ⟨cmd, v, true⟩ w).2.events,
        a = ["rev-parse", "--is-inside-work-tree"] ∨
        a = ["rev-parse", "--abbrev-ref", "HEAD"] ∨
        a = ["status", "--porcelain"]) ∧
    (∀ (w : World) (v : Bool) (message : Option String)
        (files : Option (List String)) (conventional : Bool) (cfg : Config)
        (out0 out1 out2 : Output),
      load_config w.configFile = Except.ok cfg →
      w.oracle 0 = SpawnResult.ok out0 → out0.success = true →
      w.oracle 1 = SpawnResult.ok out1 → out1.stdout.isEmpty = false →
      w.oracle 2 = SpawnResult.ok out2 →
      spawns (main ⟨Commands.commit message files conventional, v, true⟩
          w).2.events =
        [["rev-parse", "--is-inside-work-tree"],
         ["status", "--porcelain"],
         ["rev-parse", "--abbrev-ref", "HEAD"]]) := by
  constructor
  · intro cmd v w a ha
    rcases hcfg : load_config w.configFile with e | cfg
    · simp [main, hcfg, initSt, spawns] at ha
    · rcases h0 : w.oracle 0 with e0 | out0
      · simp [main, hcfg, GitOps.check_git_repo, run_git, initSt, emit,
          spawns, h0] at ha
        simp [ha]
      · cases h0s : out0.success with
        | false =>
          simp [main, hcfg, GitOps.check_git_repo, run_git, initSt, emit,
            spawns, h0, h0s] at ha
          simp [ha]
        | true =>
          cases cmd with
          | commit message files conventional =>
            cases hap : cfg.auto_pull <;>
            · rcases h1 : w.oracle 1 with e1 | out1
              · simp [main, hcfg, GitOps.check_git_repo, GitOps.pull,
                  GitOps.add_files, GitOps.has_changes, run_git, emit, initSt,
                  spawns, h0, h0s, hap, h1] at ha
                tauto
              · cases hN : out1.stdout.isEmpty
                · rcases h2 : w.oracle 2 with e2 | out2 <;>
                  · simp [main, hcfg, GitOps.check_git_repo, GitOps.pull,
                      GitOps.add_files, GitOps.has_changes, GitOps.commit,
                      GitOps.get_current_branch, GitOps.push, run_git, emit,
                      initSt, spawns, h0, h0s, hap, h1, hN, h2] at ha
                    tauto
                · simp [main, hcfg, GitOps.check_git_repo, GitOps.pull,
                    GitOps.add_files, GitOps.has_changes, run_git, emit,
                    initSt, spawns, h0, h0s, hap, h1, hN] at ha
                  tauto
          | branch bc =>
            cases bc <;>
            · simp [main, hcfg, GitOps.check_git_repo, GitOps.create_branch,
                GitOps.switch_branch, GitOps.delete_branch, run_git, emit,
                initSt, spawns, h0, h0s] at ha
              tauto
          | init =>
            simp [main, hcfg, GitOps.check_git_repo, run_git, emit, initSt,
              spawns, h0, h0s] at ha
            tauto
          | status =>
            rcases h1 : w.oracle 1 with e1 | out1
            · simp [main, hcfg, GitOps.check_git_repo,
                GitOps.get_current_branch, run_git, emit, initSt, spawns,
                h0, h0s, h1] at ha
              tauto
            · rcases h2 : w.oracle 2 with e2 | out2 <;>
              · simp [main, hcfg, GitOps.check_git_repo,
                  GitOps.get_current_branch, GitOps.has_changes, run_git,
                  emit, initSt, spawns, h0, h0s, h1, h2] at ha
                tauto
  · intro w v message files conventional cfg out0 out1 out2 hcfg h0 h0s h1
      h1e h2
    cases hap : cfg.auto_pull <;>
      simp [main, hcfg, GitOps.check_git_repo, GitOps.pull, GitOps.add_files,
        GitOps.has_changes, GitOps.commit, GitOps.get_current_branch,
        GitOps.push, run_git, emit, initSt, spawns, hap,
        h0, h0s, h1, h1e, h2]

/-- Concrete world for the C2 witness: dry-run commit on a dirty tree. -/
def wC2 : World :=
  { configFile := none
    adj := "great"
    noun := "idea"
    oracle := fun n =>
      if n = 1 then SpawnResult.ok ⟨true, " M file.txt\n", ""⟩
      else if n = 2 then SpawnResult.ok ⟨true, "main\n", ""⟩
      else SpawnResult.ok ⟨true, "", ""⟩ }

/-- Witness for C2 at concrete inputs. -/
theorem dry_run_spawns_only_read_only_witness :
    (["rev-parse", "--is-inside-work-tree"] =
        ["rev-parse", "--is-inside-work-tree"] ∨
      ["rev-parse", "--is-inside-work-tree"] =
        ["rev-parse", "--abbrev-ref", "HEAD"] ∨
      ["rev-parse", "--is-inside-work-tree"] = ["status", "--porcelain"]) ∧
    spawns (main ⟨Commands.commit none none false, false, true⟩ wC2).2.events =
      [["rev-parse", "--is-inside-work-tree"],
       ["status", "--porcelain"],
       ["rev-parse", "--abbrev-ref", "HEAD"]] :=
  ⟨dry_run_spawns_only_read_only.1 Commands.status false wC2
      ["rev-parse", "--is-inside-work-tree"] (by decide),
   dry_run_spawns_only_read_only.2 wC2 false none none false Config.default
      ⟨true, "", ""⟩ ⟨true, " M file.txt\n", ""⟩ ⟨true, "main\n", ""⟩
      rfl rfl rfl rfl (by decide) rfl⟩

end GitAutomation
